import Mathlib

/-! # FlowState: the simulation tick of `src/App.jsx`

A shallow embedding of the `useFrame` callback of the `Simulation` component
(light phase logic, spawn step, per-vehicle move step) and the properties of
it that the specification states.

Modelling conventions.

* JavaScript numbers are modelled as exact rationals `ℚ`; every decimal literal
  of the source (`0.016`, `0.01`, `0.08`, `0.1`, `0.65`, ...) is the rational it
  denotes.
* `pos` and `dirVec` are the ground-plane components `[0]` and `[2]` of the
  source arrays; component `[1]` is constantly `0` and never read by the logic.
  The display-only fields `rot` and `color` are omitted.
* `Math.sqrt (s)` only occurs under a comparison with a non-negative literal
  `c`; `Math.sqrt (s) < c` is modelled by `s < c * c` and `Math.sqrt (s) > c`
  by `c * c < s`, which is exact for `0 ≤ s`, `0 ≤ c`.
* `Math.random ()` results are explicit inputs of the tick (`Rand`).
* The in-place update `car.speed += ...` is modelled by threading the speed
  through the move step; no other vehicle reads `speed`.
* The callback reads the rendered array `cars` (emergency detection, spawn
  check) and its two `setCars` updaters act on `prev`; both are the current
  vehicle array, and the second updater sees the array the first one returned.
-/

namespace FlowState

/-! ## Configuration constants -/

/-- Source constant `SPAWN_RATE = 0.02`. -/
def SPAWN_RATE : ℚ := 2 / 100

/-- Source constant `CAR_SPEED = 0.25`. -/
def CAR_SPEED : ℚ := 25 / 100

/-- Source constant `CAR_SPEED_FAST = 0.45`. -/
def CAR_SPEED_FAST : ℚ := 45 / 100

/-! ## Data model -/

/-- Light colours: the strings `red`, `yellow`, `green` of the source. -/
inductive Light where
  | red
  | yellow
  | green
deriving DecidableEq, Repr

/-- The `mode` property: `baseline` (fixed timer) or `flux` (adaptive). -/
inductive Mode where
  | baseline
  | flux
deriving DecidableEq, Repr

/-- The `type` field of a vehicle record. -/
inductive CarType where
  | car
  | ambulance
deriving DecidableEq, Repr

/-- A vehicle record of the `cars` array. -/
structure Car where
  id : ℚ
  type : CarType
  lane : ℕ
  pos : ℚ × ℚ
  dirVec : ℚ × ℚ
  speed : ℚ
  speedFactor : ℚ
deriving DecidableEq

/-! ## Arithmetic helpers -/

/-- JavaScript `a % b` on numbers: the remainder of the division truncated
toward zero (its sign follows the dividend). -/
def jsMod (a b : ℚ) : ℚ :=
  a - b * (if 0 ≤ a / b then (⌊a / b⌋ : ℚ) else (⌈a / b⌉ : ℚ))

/-- The expression `Math.sqrt (x ** 2 + z ** 2)` is kept as its square. -/
def distSq (p : ℚ × ℚ) : ℚ := p.1 * p.1 + p.2 * p.2

/-! ## 0. / 1. Emergency detection and lights logic -/

/-- Source: `cars.find (c => c.type === 'ambulance')`. -/
def findAmbulance (cars : List Car) : Option Car :=
  cars.find? (fun c => decide (c.type = CarType.ambulance))

/-- The timed 14 second cycle of the `baseline` branch. -/
def baselineCycle (t : ℚ) : Light × Light :=
  let cycle := jsMod t 14
  if cycle < 6 then (Light.green, Light.red)
  else if cycle < 7 then (Light.yellow, Light.red)
  else if cycle < 13 then (Light.red, Light.green)
  else (Light.red, Light.yellow)

/-- The timed 5 second cycle of the final `else` branch. -/
def fluxCycle (t : ℚ) : Light × Light :=
  let cycle := jsMod t 5
  if cycle < 2 then (Light.green, Light.red)
  else if cycle < 25 / 10 then (Light.yellow, Light.red)
  else if cycle < 45 / 10 then (Light.red, Light.green)
  else (Light.red, Light.yellow)

/-- Lights logic of the tick: the pair `(nsColor, ewColor)`. -/
def lightsLogic (mode : Mode) (t : ℚ) (cars : List Car) : Light × Light :=
  match findAmbulance cars, mode with
  | some ambulance, Mode.flux =>
      if ambulance.lane < 2 then (Light.green, Light.red) else (Light.red, Light.green)
  | _, Mode.baseline => baselineCycle t
  | none, Mode.flux => fluxCycle t

/-! ## 2. Spawn step -/

/-- The `Math.random ()` draws of one tick that the logic depends on. -/
structure Rand where
  spawnRoll : ℚ
  laneRoll : ℚ
  ambulanceRoll : ℚ
  idRoll : ℚ
  factorRoll : ℚ

/-- Spawn position and heading of a lane (`d = 120`). -/
def spawnPoint (lane : ℤ) : (ℚ × ℚ) × (ℚ × ℚ) × ℕ :=
  if lane = 0 then ((-2, -120), (0, 1), 0)
  else if lane = 1 then ((2, 120), (0, -1), 1)
  else if lane = 2 then ((120, -2), (-1, 0), 2)
  else ((-120, 2), (1, 0), 3)

/-- The spawn check loop: some vehicle lies within distance 15 of `pos`. -/
def spawnBlocked (pos : ℚ × ℚ) : List Car → Bool
  | [] => false
  | c :: rest =>
      let dx := c.pos.1 - pos.1
      let dz := c.pos.2 - pos.2
      if dx * dx + dz * dz < 15 * 15 then true else spawnBlocked pos rest

/-- The spawn step: the vehicle array after the first `setCars` updater. -/
def spawnCars (timeScale : ℚ) (rnd : Rand) (cars : List Car) : List Car :=
  if rnd.spawnRoll < SPAWN_RATE * timeScale then
    let lane : ℤ := ⌊rnd.laneRoll * 4⌋
    let isAmbulance : Bool := decide (rnd.ambulanceRoll < 3 / 100)
    let sp := spawnPoint lane
    if spawnBlocked sp.1 cars then cars
    else cars ++ [{ id := rnd.idRoll
                    type := if isAmbulance then CarType.ambulance else CarType.car
                    lane := sp.2.2
                    pos := sp.1
                    dirVec := sp.2.1
                    speed := 0
                    speedFactor := 9 / 10 + rnd.factorRoll * (2 / 10) }]
  else cars

/-! ## 3. Move step -/

/-- Source: `baseSpeed * variance`. -/
def targetSpeed (mode : Mode) (car : Car) : ℚ :=
  let baseSpeed : ℚ :=
    if car.type = CarType.ambulance then 65 / 100
    else (if mode = Mode.baseline then CAR_SPEED else CAR_SPEED_FAST)
  let variance : ℚ :=
    if mode = Mode.flux then 1 else (if car.speedFactor = 0 then 1 else car.speedFactor)
  baseSpeed * variance

/-- Source: `FPS_SCALE = dt / 0.016`. -/
def fpsScale (dt : ℚ) : ℚ := dt / (16 / 1000)

/-- Source: `acceleration = 0.01 * timeScale * FPS_SCALE`. -/
def acceleration (timeScale dt : ℚ) : ℚ := 1 / 100 * timeScale * fpsScale dt

/-- Source: `braking = 0.08 * timeScale * FPS_SCALE`. -/
def braking (timeScale dt : ℚ) : ℚ := 8 / 100 * timeScale * fpsScale dt

/-- Speed after the `Update Speed` statement. -/
def accelerated (mode : Mode) (timeScale dt : ℚ) (car : Car) : ℚ :=
  if car.speed < targetSpeed mode car then car.speed + acceleration timeScale dt
  else car.speed

/-- Source constant `STOP_LINE_DIST = 12`. -/
def STOP_LINE_DIST : ℚ := 12

/-- Source constant `POINT_OF_NO_RETURN = STOP_LINE_DIST + 2.0`. -/
def POINT_OF_NO_RETURN : ℚ := STOP_LINE_DIST + 2

/-- Source constant `DETECTION_ZONE = STOP_LINE_DIST + 7`. -/
def DETECTION_ZONE : ℚ := STOP_LINE_DIST + 7

/-- Source: `approaching = distToCenter > STOP_LINE_DIST`. -/
def approaching (car : Car) : Bool :=
  decide (STOP_LINE_DIST * STOP_LINE_DIST < distSq car.pos)

/-- Source: `isMovingAway`, the dot product of position and heading is positive. -/
def isMovingAway (car : Car) : Bool :=
  decide (0 < car.pos.1 * car.dirVec.1 + car.pos.2 * car.dirVec.2)

/-- The traffic light stop block; `speed` is the speed after `Update Speed`. -/
def lightStop (nsColor ewColor : Light) (car : Car) (speed : ℚ) : Bool :=
  if approaching car && decide (distSq car.pos < DETECTION_ZONE * DETECTION_ZONE)
      && !isMovingAway car then
    let pastPoint : Bool := decide (distSq car.pos < POINT_OF_NO_RETURN * POINT_OF_NO_RETURN)
    let isMovingFast : Bool := decide (1 / 10 < speed)
    let light := if car.lane < 2 then nsColor else ewColor
    let mustStop : Bool :=
      if pastPoint && isMovingFast then false
      else if light = Light.red then true
      else if light = Light.yellow then (if !pastPoint then true else false)
      else false
    if car.type = CarType.ambulance then false else mustStop
  else false

/-- Source: `distAhead` of `other` as seen from `car`. -/
def distAhead (car other : Car) : ℚ :=
  (other.pos.1 - car.pos.1) * car.dirVec.1 + (other.pos.2 - car.pos.2) * car.dirVec.2

/-- The car following loop over `prev`, started with the current `mustStop`. -/
def followingCheck (car : Car) (mustStop : Bool) : List Car → Bool
  | [] => mustStop
  | other :: rest =>
      if other.id = car.id then followingCheck car mustStop rest
      else if other.lane ≠ car.lane then followingCheck car mustStop rest
      else if 0 < distAhead car other ∧ distAhead car other < 8 then true
      else followingCheck car mustStop rest

/-- The value of `mustStop` when the `if (mustStop)` statement is reached. -/
def mustStop (mode : Mode) (timeScale dt : ℚ) (nsColor ewColor : Light)
    (prev : List Car) (car : Car) : Bool :=
  followingCheck car (lightStop nsColor ewColor car (accelerated mode timeScale dt car)) prev

/-- The value of `car.speed` after the `if (mustStop)` statement. -/
def nextSpeed (mode : Mode) (timeScale dt : ℚ) (nsColor ewColor : Light)
    (prev : List Car) (car : Car) : ℚ :=
  if mustStop mode timeScale dt nsColor ewColor prev car then
    max 0 (accelerated mode timeScale dt car - braking timeScale dt)
  else accelerated mode timeScale dt car

/-- Source: `nextPos` after the movement is applied. -/
def nextPos (mode : Mode) (timeScale dt : ℚ) (nsColor ewColor : Light)
    (prev : List Car) (car : Car) : ℚ × ℚ :=
  let moveStep := nextSpeed mode timeScale dt nsColor ewColor prev car * fpsScale dt
  (car.pos.1 + car.dirVec.1 * moveStep, car.pos.2 + car.dirVec.2 * moveStep)

/-- Source: the test `distToCenter > 130 && !approaching` before `return null`. -/
def despawned (car : Car) : Bool :=
  decide (130 * 130 < distSq car.pos) && !approaching car

/-- The callback mapped over `prev`: `none` is the source's `null`. -/
def moveCar (mode : Mode) (timeScale dt : ℚ) (nsColor ewColor : Light)
    (prev : List Car) (car : Car) : Option Car :=
  if despawned car then none
  else some { car with
    speed := nextSpeed mode timeScale dt nsColor ewColor prev car
    pos := nextPos mode timeScale dt nsColor ewColor prev car }

/-- The move step: `prev.map (...).filter (c => c !== null)`. -/
def moveCars (mode : Mode) (timeScale dt : ℚ) (nsColor ewColor : Light)
    (prev : List Car) : List Car :=
  prev.filterMap (moveCar mode timeScale dt nsColor ewColor prev)

/-! ## The tick -/

/-- Result of one `useFrame` callback. -/
structure TickResult where
  cars : List Car
  nsColor : Light
  ewColor : Light

/-- Source: `dt = Math.min (delta, 0.1) * timeScale`. -/
def scaledDelta (timeScale delta : ℚ) : ℚ := min delta (1 / 10) * timeScale

/-- One `useFrame` callback on the vehicle array `cars`. -/
def tick (mode : Mode) (timeScale delta t : ℚ) (rnd : Rand) (cars : List Car) : TickResult :=
  let dt := scaledDelta timeScale delta
  let lights := lightsLogic mode t cars
  let prev := spawnCars timeScale rnd cars
  { cars := moveCars mode timeScale dt lights.1 lights.2 prev
    nsColor := lights.1
    ewColor := lights.2 }

/-- Vehicle arrays reachable from the initial state `useState ([])` by ticks
with `delta ≥ 0` and `timeScale > 0`. -/
inductive Reachable : List Car → Prop where
  | init : Reachable []
  | step (mode : Mode) (timeScale delta t : ℚ) (rnd : Rand) (cars : List Car) :
      Reachable cars → 0 ≤ delta → 0 < timeScale →
      Reachable (tick mode timeScale delta t rnd cars).cars

/-! ## Specification-side vocabulary -/

/-- The cycle phase `t mod m` of the specification, for `t ≥ 0` and `m > 0`:
the unique `c` in `[0, m)` with `t = m * k + c` for an integer `k`. -/
def phase (t m : ℚ) : ℚ := t - m * (⌊t / m⌋ : ℚ)

/-- No vehicle of the array is an emergency vehicle. -/
def NoEmergency (cars : List Car) : Prop := ∀ c ∈ cars, c.type ≠ CarType.ambulance

/-! ## Lemmas on the lights logic -/

theorem jsMod_eq_phase (t m : ℚ) (ht : 0 ≤ t) (hm : 0 < m) : jsMod t m = phase t m := by
  have h : 0 ≤ t / m := div_nonneg ht hm.le
  simp [jsMod, phase, h]

theorem phase_nonneg (t m : ℚ) (hm : 0 < m) : 0 ≤ phase t m := by
  have h := Int.floor_le (t / m)
  have h2 : (⌊t / m⌋ : ℚ) * m ≤ t := (le_div_iff₀ hm).mp h
  unfold phase
  linarith

theorem phase_lt (t m : ℚ) (hm : 0 < m) : phase t m < m := by
  have h := Int.lt_floor_add_one (t / m)
  have h2 : t < ((⌊t / m⌋ : ℚ) + 1) * m := (div_lt_iff₀ hm).mp h
  unfold phase
  linarith

theorem findAmbulance_none (cars : List Car) (h : NoEmergency cars) :
    findAmbulance cars = none := by
  unfold findAmbulance
  rw [List.find?_eq_none]
  intro c hc
  simpa using h c hc

theorem lightsLogic_baseline (t : ℚ) (cars : List Car) :
    lightsLogic Mode.baseline t cars = baselineCycle t := by
  unfold lightsLogic
  cases findAmbulance cars <;> rfl

theorem lightsLogic_flux_none (t : ℚ) (cars : List Car) (h : findAmbulance cars = none) :
    lightsLogic Mode.flux t cars = fluxCycle t := by
  unfold lightsLogic
  rw [h]

theorem lightsLogic_flux_some (t : ℚ) (cars : List Car) (a : Car)
    (h : findAmbulance cars = some a) :
    lightsLogic Mode.flux t cars
      = if a.lane < 2 then (Light.green, Light.red) else (Light.red, Light.green) := by
  unfold lightsLogic
  rw [h]

/-- Every branch of the two timed cycles leaves one group red. -/
theorem baselineCycle_red (t : ℚ) :
    (baselineCycle t).1 = Light.red ∨ (baselineCycle t).2 = Light.red := by
  unfold baselineCycle
  simp only []
  split_ifs <;> simp

theorem fluxCycle_red (t : ℚ) :
    (fluxCycle t).1 = Light.red ∨ (fluxCycle t).2 = Light.red := by
  unfold fluxCycle
  simp only []
  split_ifs <;> simp

theorem lightsLogic_red (mode : Mode) (t : ℚ) (cars : List Car) :
    (lightsLogic mode t cars).1 = Light.red ∨ (lightsLogic mode t cars).2 = Light.red := by
  cases mode with
  | baseline => rw [lightsLogic_baseline]; exact baselineCycle_red t
  | flux =>
    cases h : findAmbulance cars with
    | none => rw [lightsLogic_flux_none t cars h]; exact fluxCycle_red t
    | some a =>
      rw [lightsLogic_flux_some t cars a h]
      split_ifs <;> simp

/-! ## Claims on the light colours -/

/-- C1: with no preemption in effect the tick's light colours follow the
timed-cycle table for every `t ≥ 0`: under `baseline` (any vehicle array), with
`c = t mod 14`, green/red for `c < 6`, yellow/red for `6 ≤ c < 7`, red/green for
`7 ≤ c < 13`, red/yellow for `13 ≤ c < 14`; under `flux` with no emergency
vehicle, with `c = t mod 5`, green/red for `c < 2`, yellow/red for
`2 ≤ c < 2.5`, red/green for `2.5 ≤ c < 4.5`, red/yellow for `4.5 ≤ c < 5`. -/
theorem C1_timed_cycle_table (t : ℚ) (ht : 0 ≤ t) (timeScale delta : ℚ) (rnd : Rand)
    (cars : List Car) :
    (let r := tick Mode.baseline timeScale delta t rnd cars
     let c := phase t 14
     (0 ≤ c ∧ c < 14) ∧
     (c < 6 → (r.nsColor, r.ewColor) = (Light.green, Light.red)) ∧
     (6 ≤ c ∧ c < 7 → (r.nsColor, r.ewColor) = (Light.yellow, Light.red)) ∧
     (7 ≤ c ∧ c < 13 → (r.nsColor, r.ewColor) = (Light.red, Light.green)) ∧
     (13 ≤ c ∧ c < 14 → (r.nsColor, r.ewColor) = (Light.red, Light.yellow))) ∧
    (NoEmergency cars →
     let r := tick Mode.flux timeScale delta t rnd cars
     let c := phase t 5
     (0 ≤ c ∧ c < 5) ∧
     (c < 2 → (r.nsColor, r.ewColor) = (Light.green, Light.red)) ∧
     (2 ≤ c ∧ c < 25 / 10 → (r.nsColor, r.ewColor) = (Light.yellow, Light.red)) ∧
     (25 / 10 ≤ c ∧ c < 45 / 10 → (r.nsColor, r.ewColor) = (Light.red, Light.green)) ∧
     (45 / 10 ≤ c ∧ c < 5 → (r.nsColor, r.ewColor) = (Light.red, Light.yellow))) := by
  constructor
  · have hb : lightsLogic Mode.baseline t cars = baselineCycle t := lightsLogic_baseline t cars
    have hm : jsMod t 14 = phase t 14 := jsMod_eq_phase t 14 ht (by norm_num)
    have h0 := phase_nonneg t 14 (by norm_num)
    have h1 := phase_lt t 14 (by norm_num)
    simp only [tick, hb, baselineCycle, hm]
    refine ⟨⟨h0, h1⟩, ?_, ?_, ?_, ?_⟩
    · intro h; simp [h]
    · rintro ⟨h, k⟩; simp [not_lt.mpr h, k]
    · rintro ⟨h, k⟩
      have a : ¬ phase t 14 < 6 := by linarith
      simp [a, not_lt.mpr h, k]
    · rintro ⟨h, _⟩
      have a : ¬ phase t 14 < 6 := by linarith
      have b : ¬ phase t 14 < 7 := by linarith
      simp [a, b, not_lt.mpr h]
  · intro hne
    have hb : lightsLogic Mode.flux t cars = fluxCycle t :=
      lightsLogic_flux_none t cars (findAmbulance_none cars hne)
    have hm : jsMod t 5 = phase t 5 := jsMod_eq_phase t 5 ht (by norm_num)
    have h0 := phase_nonneg t 5 (by norm_num)
    have h1 := phase_lt t 5 (by norm_num)
    simp only [tick, hb, fluxCycle, hm]
    refine ⟨⟨h0, h1⟩, ?_, ?_, ?_, ?_⟩
    · intro h; simp [h]
    · rintro ⟨h, k⟩; simp [not_lt.mpr h, k]
    · rintro ⟨h, k⟩
      have a : ¬ phase t 5 < 2 := by linarith
      simp [a, not_lt.mpr h, k]
    · rintro ⟨h, _⟩
      have a : ¬ phase t 5 < 2 := by linarith
      have b : ¬ phase t 5 < 25 / 10 := by linarith
      simp [a, b, not_lt.mpr h]

/-- C2: for every elapsed time, policy and vehicle array the light colours
computed by the tick leave at least one group red; so the groups are never
both green, nor one green while the other is yellow. -/
theorem C2_one_group_red (mode : Mode) (timeScale delta t : ℚ) (rnd : Rand)
    (cars : List Car) :
    ((tick mode timeScale delta t rnd cars).nsColor = Light.red ∨
      (tick mode timeScale delta t rnd cars).ewColor = Light.red) ∧
    ¬ ((tick mode timeScale delta t rnd cars).nsColor = Light.green ∧
        (tick mode timeScale delta t rnd cars).ewColor = Light.green) ∧
    ¬ ((tick mode timeScale delta t rnd cars).nsColor = Light.green ∧
        (tick mode timeScale delta t rnd cars).ewColor = Light.yellow) ∧
    ¬ ((tick mode timeScale delta t rnd cars).nsColor = Light.yellow ∧
        (tick mode timeScale delta t rnd cars).ewColor = Light.green) := by
  have h := lightsLogic_red mode t cars
  simp only [tick]
  rcases h with h | h <;> simp [h]

/-! ## Sample data -/

/-- Random draws under which no spawn attempt fires (`timeScale ≤ 50`). -/
def rndIdle : Rand :=
  { spawnRoll := 1, laneRoll := 0, ambulanceRoll := 1, idRoll := 0, factorRoll := 1 / 2 }

/-- An ordinary vehicle on lane `0` (N→S) at its spawn point. -/
def carN : Car :=
  { id := 1 / 8, type := CarType.car, lane := 0, pos := (-2, -120), dirVec := (0, 1),
    speed := 0, speedFactor := 1 }

/-- An emergency vehicle on lane `1` (S→N). -/
def ambS : Car :=
  { id := 2 / 8, type := CarType.ambulance, lane := 1, pos := (2, 100), dirVec := (0, -1),
    speed := 0, speedFactor := 1 }

/-- An emergency vehicle on lane `2` (E→W). -/
def ambE : Car :=
  { id := 3 / 8, type := CarType.ambulance, lane := 2, pos := (100, -2), dirVec := (-1, 0),
    speed := 0, speedFactor := 1 }

theorem phase_of_lt (t m : ℚ) (h0 : 0 ≤ t) (h1 : t < m) : phase t m = t := by
  have hm : 0 < m := lt_of_le_of_lt h0 h1
  have hf : ⌊t / m⌋ = 0 := by
    rw [Int.floor_eq_iff]
    refine ⟨by simpa using div_nonneg h0 hm.le, ?_⟩
    have : t / m < 1 := (div_lt_one hm).mpr h1
    simpa using this
  simp [phase, hf]

/-- C1 at the scenario instants: `baseline` at `t = 5.0`, `6.5`, `10.0` and
`flux` at `t = 3.0` with no vehicle. -/
theorem C1_timed_cycle_table_witness :
    ((tick Mode.baseline 1 (1 / 60) 5 rndIdle [ambE]).nsColor,
      (tick Mode.baseline 1 (1 / 60) 5 rndIdle [ambE]).ewColor) = (Light.green, Light.red) ∧
    ((tick Mode.baseline 1 (1 / 60) (13 / 2) rndIdle [carN]).nsColor,
      (tick Mode.baseline 1 (1 / 60) (13 / 2) rndIdle [carN]).ewColor)
        = (Light.yellow, Light.red) ∧
    ((tick Mode.baseline 1 (1 / 60) 10 rndIdle []).nsColor,
      (tick Mode.baseline 1 (1 / 60) 10 rndIdle []).ewColor) = (Light.red, Light.green) ∧
    ((tick Mode.flux 1 (1 / 60) 3 rndIdle [carN]).nsColor,
      (tick Mode.flux 1 (1 / 60) 3 rndIdle [carN]).ewColor) = (Light.red, Light.green) :=
  ⟨(C1_timed_cycle_table 5 (by norm_num) 1 (1 / 60) rndIdle [ambE]).1.2.1
      (by rw [phase_of_lt 5 14 (by norm_num) (by norm_num)]; norm_num),
   (C1_timed_cycle_table (13 / 2) (by norm_num) 1 (1 / 60) rndIdle [carN]).1.2.2.1
      (by rw [phase_of_lt (13 / 2) 14 (by norm_num) (by norm_num)]; norm_num),
   (C1_timed_cycle_table 10 (by norm_num) 1 (1 / 60) rndIdle []).1.2.2.2.1
      (by rw [phase_of_lt 10 14 (by norm_num) (by norm_num)]; norm_num),
   ((C1_timed_cycle_table 3 (by norm_num) 1 (1 / 60) rndIdle [carN]).2
      (by intro c hc; simp [carN] at hc; subst hc; decide)).2.2.2.1
      (by rw [phase_of_lt 3 5 (by norm_num) (by norm_num)]; norm_num)⟩

/-- C3 fails as stated: with an emergency vehicle on lane `2` (E→W) ahead, in
array order, of an emergency vehicle on lane `1` (S→N), the `flux` tick
computes NS red and EW green. -/
theorem C3_counterexample :
    (∃ a ∈ [ambE, ambS], a.type = CarType.ambulance ∧ a.lane < 2) ∧
    (tick Mode.flux 1 (1 / 60) 0 rndIdle [ambE, ambS]).nsColor = Light.red ∧
    (tick Mode.flux 1 (1 / 60) 0 rndIdle [ambE, ambS]).ewColor = Light.green := by
  refine ⟨⟨ambS, by simp, rfl, by decide⟩, ?_, ?_⟩ <;>
    simp [tick, lightsLogic, findAmbulance, ambE, ambS]

/-- C3, amended: for every elapsed time and every vehicle array whose first
emergency vehicle, in array order, is on an NS lane (lane `0` or `1`), the
`flux` tick computes NS green and EW red, whatever vehicles precede it
(ordinary ones) or follow it (emergency vehicles on EW lanes included). -/
theorem C3_first_emergency_preempts (timeScale delta t : ℚ) (rnd : Rand)
    (before after : List Car) (a : Car)
    (hb : NoEmergency before) (ha : a.type = CarType.ambulance) (hl : a.lane < 2) :
    (tick Mode.flux timeScale delta t rnd (before ++ a :: after)).nsColor = Light.green ∧
    (tick Mode.flux timeScale delta t rnd (before ++ a :: after)).ewColor = Light.red := by
  have hf : findAmbulance (before ++ a :: after) = some a := by
    unfold findAmbulance
    rw [List.find?_append, List.find?_eq_none.mpr (fun c hc => by simpa using hb c hc)]
    simp [ha]
  simp [tick, lightsLogic_flux_some t _ a hf, hl]

/-- C3 (amended) at an array with an ordinary vehicle, then an NS emergency
vehicle, then an EW emergency vehicle, at `t = 4.9`. -/
theorem C3_first_emergency_preempts_witness :
    (tick Mode.flux 1 (1 / 60) (49 / 10) rndIdle ([carN] ++ ambS :: [ambE])).nsColor
        = Light.green ∧
    (tick Mode.flux 1 (1 / 60) (49 / 10) rndIdle ([carN] ++ ambS :: [ambE])).ewColor
        = Light.red :=
  C3_first_emergency_preempts 1 (1 / 60) (49 / 10) rndIdle [carN] [ambE] ambS
    (by intro c hc; simp [carN] at hc; subst hc; decide) rfl (by decide)

/-- C4 fails as stated: under `baseline` at `t = 6.5` with an ordinary vehicle
only, NS is yellow and EW is red, so neither group is green. -/
theorem C4_counterexample :
    NoEmergency [carN] ∧
    (tick Mode.baseline 1 (1 / 60) (13 / 2) rndIdle [carN]).nsColor ≠ Light.green ∧
    (tick Mode.baseline 1 (1 / 60) (13 / 2) rndIdle [carN]).ewColor ≠ Light.green := by
  have hp : jsMod (13 / 2) 14 = 13 / 2 := by
    rw [jsMod_eq_phase _ _ (by norm_num) (by norm_num),
      phase_of_lt _ _ (by norm_num) (by norm_num)]
  refine ⟨by intro c hc; simp [carN] at hc; subst hc; decide, ?_, ?_⟩ <;>
    · simp only [tick, lightsLogic_baseline, baselineCycle, hp]
      norm_num
      decide

/-- C4, amended: for every `t ≥ 0`, under `baseline` with no emergency vehicle,
the two groups are never both green and exactly one of them is not red;
exactly one group is green precisely when `t mod 14` lies in `[0, 6)` or
`[7, 13)`, and in the yellow phases `[6, 7)` and `[13, 14)` none is green. -/
theorem C4_one_group_not_red (t : ℚ) (ht : 0 ≤ t) (timeScale delta : ℚ) (rnd : Rand)
    (cars : List Car) (_hne : NoEmergency cars) :
    let r := tick Mode.baseline timeScale delta t rnd cars
    let c := phase t 14
    ¬ (r.nsColor = Light.green ∧ r.ewColor = Light.green) ∧
    ((r.nsColor ≠ Light.red ∧ r.ewColor = Light.red) ∨
      (r.nsColor = Light.red ∧ r.ewColor ≠ Light.red)) ∧
    (((r.nsColor = Light.green ∧ r.ewColor ≠ Light.green) ∨
        (r.nsColor ≠ Light.green ∧ r.ewColor = Light.green))
      ↔ (c < 6 ∨ (7 ≤ c ∧ c < 13))) ∧
    (((6 ≤ c ∧ c < 7) ∨ 13 ≤ c) → r.nsColor ≠ Light.green ∧ r.ewColor ≠ Light.green) := by
  have hm : jsMod t 14 = phase t 14 := jsMod_eq_phase t 14 ht (by norm_num)
  simp only [tick, lightsLogic_baseline, baselineCycle, hm]
  by_cases h1 : phase t 14 < 6
  · have k0 : ¬ 6 ≤ phase t 14 := not_le.mpr h1
    have k5 : ¬ 13 ≤ phase t 14 := by linarith
    simp [h1, k0, k5]
  · by_cases h2 : phase t 14 < 7
    · have k1 : 6 ≤ phase t 14 := not_lt.mp h1
      simp [h1, h2, k1]
    · by_cases h3 : phase t 14 < 13
      · have k2 : 7 ≤ phase t 14 := not_lt.mp h2
        simp [h1, h2, h3, k2]
      · have k3 : 13 ≤ phase t 14 := not_lt.mp h3
        have k4 : ¬ (7 ≤ phase t 14 ∧ phase t 14 < 13) := fun h => h3 h.2
        simp [h1, h2, h3, k3, k4]

/-- C4 (amended) at `t = 10` with one ordinary vehicle. -/
theorem C4_one_group_not_red_witness :
    let r := tick Mode.baseline 1 (1 / 60) 10 rndIdle [carN]
    let c := phase 10 14
    ¬ (r.nsColor = Light.green ∧ r.ewColor = Light.green) ∧
    ((r.nsColor ≠ Light.red ∧ r.ewColor = Light.red) ∨
      (r.nsColor = Light.red ∧ r.ewColor ≠ Light.red)) ∧
    (((r.nsColor = Light.green ∧ r.ewColor ≠ Light.green) ∨
        (r.nsColor ≠ Light.green ∧ r.ewColor = Light.green))
      ↔ (c < 6 ∨ (7 ≤ c ∧ c < 13))) ∧
    (((6 ≤ c ∧ c < 7) ∨ 13 ≤ c) → r.nsColor ≠ Light.green ∧ r.ewColor ≠ Light.green) :=
  C4_one_group_not_red 10 (by norm_num) 1 (1 / 60) rndIdle [carN]
    (by intro c hc; simp [carN] at hc; subst hc; decide)

/-! ## Lemmas on the move step -/

/-- Some vehicle of `prev` other than `car` (by id), in the lane of `car`, is
less than 8 units ahead of it. -/
def Blocked (car : Car) (prev : List Car) : Prop :=
  ∃ other ∈ prev, other.id ≠ car.id ∧ other.lane = car.lane ∧
    0 < distAhead car other ∧ distAhead car other < 8

theorem followingCheck_of_blocked (car : Car) (m : Bool) (prev : List Car)
    (h : Blocked car prev) : followingCheck car m prev = true := by
  induction prev with
  | nil => obtain ⟨o, ho, _⟩ := h; simp at ho
  | cons x rest ih =>
    obtain ⟨o, ho, hid, hl, h0, h8⟩ := h
    unfold followingCheck
    rcases List.mem_cons.mp ho with rfl | hr
    · simp [hid, hl, h0, h8]
    · have hrest : Blocked car rest := ⟨o, hr, hid, hl, h0, h8⟩
      split_ifs <;> first | rfl | exact ih hrest

theorem followingCheck_of_not_blocked (car : Car) (m : Bool) (prev : List Car)
    (h : ¬ Blocked car prev) : followingCheck car m prev = m := by
  induction prev with
  | nil => rfl
  | cons x rest ih =>
    have hrest : ¬ Blocked car rest := fun ⟨o, ho, hh⟩ => h ⟨o, List.mem_cons_of_mem _ ho, hh⟩
    unfold followingCheck
    split_ifs with h1 h2 h3
    · exact ih hrest
    · exact ih hrest
    · exact absurd ⟨x, List.mem_cons_self _ _, h1, not_not.mp h2, h3.1, h3.2⟩ h
    · exact ih hrest

theorem scaledDelta_nonneg (timeScale delta : ℚ) (hd : 0 ≤ delta) (hts : 0 < timeScale) :
    0 ≤ scaledDelta timeScale delta := by
  unfold scaledDelta
  exact mul_nonneg (le_min hd (by norm_num)) hts.le

theorem fpsScale_eq (dt : ℚ) : fpsScale dt = dt * (125 / 2) := by
  unfold fpsScale
  ring

theorem acceleration_nonneg (timeScale delta : ℚ) (hd : 0 ≤ delta) (hts : 0 < timeScale) :
    0 ≤ acceleration timeScale (scaledDelta timeScale delta) := by
  have h := scaledDelta_nonneg timeScale delta hd hts
  unfold acceleration
  rw [fpsScale_eq]
  positivity

theorem braking_eq (timeScale dt : ℚ) : braking timeScale dt = 8 * acceleration timeScale dt := by
  unfold braking acceleration
  ring

/-- The despawn test of the source can never succeed: `approaching` is
`distToCenter > 12`, so `distToCenter > 130 && !approaching` is always false. -/
theorem despawned_false (car : Car) : despawned car = false := by
  unfold despawned approaching STOP_LINE_DIST
  by_cases h : 130 * 130 < distSq car.pos
  · have h2 : (12 : ℚ) * 12 < distSq car.pos := by linarith
    simp [h, h2]
  · simp [h]

theorem moveCar_eq (mode : Mode) (timeScale dt : ℚ) (nsColor ewColor : Light)
    (prev : List Car) (car : Car) :
    moveCar mode timeScale dt nsColor ewColor prev car
      = some { car with
          speed := nextSpeed mode timeScale dt nsColor ewColor prev car
          pos := nextPos mode timeScale dt nsColor ewColor prev car } := by
  simp [moveCar, despawned_false]

theorem moveCars_eq_map (mode : Mode) (timeScale dt : ℚ) (nsColor ewColor : Light)
    (prev : List Car) :
    moveCars mode timeScale dt nsColor ewColor prev
      = prev.map (fun car => { car with
          speed := nextSpeed mode timeScale dt nsColor ewColor prev car
          pos := nextPos mode timeScale dt nsColor ewColor prev car }) := by
  unfold moveCars
  rw [← List.filterMap_eq_map]
  congr 1
  funext car
  exact moveCar_eq mode timeScale dt nsColor ewColor prev car

theorem mem_spawnCars (timeScale : ℚ) (rnd : Rand) (cars : List Car) (c : Car)
    (h : c ∈ cars) : c ∈ spawnCars timeScale rnd cars := by
  unfold spawnCars
  simp only []
  split_ifs <;> simp [h]

theorem speed_of_mem_spawnCars (timeScale : ℚ) (rnd : Rand) (cars : List Car) (c : Car)
    (h : c ∈ spawnCars timeScale rnd cars) : c ∈ cars ∨ c.speed = 0 := by
  unfold spawnCars at h
  simp only [] at h
  split_ifs at h
  all_goals first
    | exact Or.inl h
    | (rcases List.mem_append.mp h with h | h
       · exact Or.inl h
       · right
         rw [List.mem_singleton] at h
         rw [h])

theorem accelerated_nonneg (mode : Mode) (timeScale delta : ℚ) (car : Car)
    (hs : 0 ≤ car.speed) (hd : 0 ≤ delta) (hts : 0 < timeScale) :
    0 ≤ accelerated mode timeScale (scaledDelta timeScale delta) car := by
  have ha := acceleration_nonneg timeScale delta hd hts
  unfold accelerated
  split_ifs <;> linarith

theorem nextSpeed_nonneg (mode : Mode) (timeScale delta : ℚ) (nsColor ewColor : Light)
    (prev : List Car) (car : Car)
    (hs : 0 ≤ car.speed) (hd : 0 ≤ delta) (hts : 0 < timeScale) :
    0 ≤ nextSpeed mode timeScale (scaledDelta timeScale delta) nsColor ewColor prev car := by
  unfold nextSpeed
  split_ifs
  · exact le_max_left _ _
  · exact accelerated_nonneg mode timeScale delta car hs hd hts

theorem spawnCars_rndIdle (cars : List Car) : spawnCars 1 rndIdle cars = cars := by
  have h : ¬ rndIdle.spawnRoll < SPAWN_RATE * 1 := by
    norm_num [rndIdle, SPAWN_RATE]
  unfold spawnCars
  rw [if_neg h]

/-- The tick maps every vehicle of the array after the spawn step to its moved
copy; nothing is removed. -/
theorem tick_cars (mode : Mode) (timeScale delta t : ℚ) (rnd : Rand) (cars : List Car) :
    (tick mode timeScale delta t rnd cars).cars
      = (spawnCars timeScale rnd cars).map (fun car => { car with
          speed := nextSpeed mode timeScale (scaledDelta timeScale delta)
            (lightsLogic mode t cars).1 (lightsLogic mode t cars).2
            (spawnCars timeScale rnd cars) car
          pos := nextPos mode timeScale (scaledDelta timeScale delta)
            (lightsLogic mode t cars).1 (lightsLogic mode t cars).2
            (spawnCars timeScale rnd cars) car }) := by
  simp only [tick]
  exact moveCars_eq_map _ _ _ _ _ _

theorem ids_ne_of_pairwise (cars : List Car) (h : cars.Pairwise (fun a b => a.id ≠ b.id))
    (a b : Car) (ha : a ∈ cars) (hb : b ∈ cars) (hne : a ≠ b) : a.id ≠ b.id := by
  induction cars with
  | nil => simp at ha
  | cons x rest ih =>
    rw [List.pairwise_cons] at h
    rcases List.mem_cons.mp ha with rfl | ha1
    · rcases List.mem_cons.mp hb with rfl | hb1
      · exact absurd rfl hne
      · exact h.1 b hb1
    · rcases List.mem_cons.mp hb with rfl | hb1
      · exact fun e => h.1 a ha1 e.symm
      · exact ih h.2 ha1 hb1

/-! ## Claims on the move step -/

/-- A vehicle on lane `1` (S→N) that has crossed the intersection and is 131
units past the centre, still moving away. -/
def carFar : Car :=
  { id := 5 / 8, type := CarType.car, lane := 1, pos := (2, -131), dirVec := (0, -1),
    speed := 1 / 4, speedFactor := 1 }

/-- C5 (the code at the failing input): `carFar` is farther than 130 from the
centre and moving away, yet the array produced by the tick still holds a
vehicle with its id; the despawn test of the source never fires. -/
theorem C5_far_vehicle_not_despawned :
    130 * 130 < distSq carFar.pos ∧
    0 < carFar.pos.1 * carFar.dirVec.1 + carFar.pos.2 * carFar.dirVec.2 ∧
    despawned carFar = false ∧
    (tick Mode.baseline 1 (1 / 60) 0 rndIdle [carFar]).cars.map Car.id = [carFar.id] := by
  refine ⟨by norm_num [carFar, distSq], by norm_num [carFar], despawned_false carFar, ?_⟩
  rw [tick_cars, spawnCars_rndIdle]
  rfl

/-- C6: for every vehicle array with pairwise distinct ids and every vehicle `c`
in it, whatever the policy and the light colours: if another vehicle `o` of the
array, in the lane of `c`, has `0 < (o.pos - c.pos) · c.dirVec < 8` (positions
of the pre-tick array), then `mustStop` is true for `c` in the tick and the
speed of `c` after the tick is `max 0 (s - braking)`, `s` being its speed after
the acceleration step; the moved copy of `c` in the result carries that speed. -/
theorem C6_following_guard (mode : Mode) (timeScale delta t : ℚ) (rnd : Rand)
    (nsColor ewColor : Light) (cars : List Car) (c o : Car)
    (hids : cars.Pairwise (fun a b => a.id ≠ b.id))
    (hc : c ∈ cars) (ho : o ∈ cars) (hne : o ≠ c) (hl : o.lane = c.lane)
    (h0 : 0 < (o.pos.1 - c.pos.1) * c.dirVec.1 + (o.pos.2 - c.pos.2) * c.dirVec.2)
    (h8 : (o.pos.1 - c.pos.1) * c.dirVec.1 + (o.pos.2 - c.pos.2) * c.dirVec.2 < 8) :
    (let dt := scaledDelta timeScale delta
     let prev := spawnCars timeScale rnd cars
     mustStop mode timeScale dt nsColor ewColor prev c = true ∧
     nextSpeed mode timeScale dt nsColor ewColor prev c
       = max 0 (accelerated mode timeScale dt c - braking timeScale dt) ∧
     braking timeScale dt = 8 / 100 * timeScale * (dt / (16 / 1000))) ∧
    (∃ m ∈ (tick mode timeScale delta t rnd cars).cars,
      m.id = c.id ∧
      m.speed = max 0 (accelerated mode timeScale (scaledDelta timeScale delta) c
                        - braking timeScale (scaledDelta timeScale delta))) := by
  have hid : o.id ≠ c.id := ids_ne_of_pairwise cars hids o c ho hc hne
  have hblk : Blocked c (spawnCars timeScale rnd cars) :=
    ⟨o, mem_spawnCars timeScale rnd cars o ho, hid, hl, h0, h8⟩
  have hstop : ∀ ns ew : Light, mustStop mode timeScale (scaledDelta timeScale delta) ns ew
      (spawnCars timeScale rnd cars) c = true := fun ns ew =>
    followingCheck_of_blocked c _ _ hblk
  have hspeed : ∀ ns ew : Light, nextSpeed mode timeScale (scaledDelta timeScale delta) ns ew
      (spawnCars timeScale rnd cars) c
        = max 0 (accelerated mode timeScale (scaledDelta timeScale delta) c
                  - braking timeScale (scaledDelta timeScale delta)) := fun ns ew => by
    unfold nextSpeed
    rw [if_pos (hstop ns ew)]
  refine ⟨⟨hstop nsColor ewColor, hspeed nsColor ewColor, rfl⟩, ?_⟩
  rw [tick_cars]
  refine ⟨_, List.mem_map.mpr ⟨c, mem_spawnCars timeScale rnd cars c hc, rfl⟩, rfl, ?_⟩
  exact hspeed _ _

/-- Two ordinary vehicles on lane `0` (N→S), five units apart. -/
def carBehind : Car :=
  { id := 6 / 8, type := CarType.car, lane := 0, pos := (-2, -60), dirVec := (0, 1),
    speed := 1 / 5, speedFactor := 1 }

/-- The vehicle five units ahead of `carBehind`. -/
def carAhead : Car :=
  { id := 7 / 8, type := CarType.car, lane := 0, pos := (-2, -55), dirVec := (0, 1),
    speed := 0, speedFactor := 1 }

/-- C6 at `carBehind`, five units behind `carAhead` on lane `0`. -/
theorem C6_following_guard_witness :
    (let dt := scaledDelta 1 (1 / 60)
     let prev := spawnCars 1 rndIdle [carAhead, carBehind]
     mustStop Mode.baseline 1 dt Light.green Light.red prev carBehind = true ∧
     nextSpeed Mode.baseline 1 dt Light.green Light.red prev carBehind
       = max 0 (accelerated Mode.baseline 1 dt carBehind - braking 1 dt) ∧
     braking 1 dt = 8 / 100 * 1 * (dt / (16 / 1000))) ∧
    (∃ m ∈ (tick Mode.baseline 1 (1 / 60) 0 rndIdle [carAhead, carBehind]).cars,
      m.id = carBehind.id ∧
      m.speed = max 0 (accelerated Mode.baseline 1 (scaledDelta 1 (1 / 60)) carBehind
                        - braking 1 (scaledDelta 1 (1 / 60)))) :=
  C6_following_guard Mode.baseline 1 (1 / 60) 0 rndIdle Light.green Light.red
    [carAhead, carBehind] carBehind carAhead
    (by simp only [List.pairwise_cons, List.Pairwise.nil]; norm_num [carAhead, carBehind])
    (by simp) (by simp) (by simp [carAhead, carBehind]) rfl
    (by norm_num [carAhead, carBehind]) (by norm_num [carAhead, carBehind])

/-- C7: vehicle speed is never negative: for every vehicle with speed `≥ 0`
before a tick, every raw `delta ≥ 0`, `timeScale > 0`, policy, light colours and
surrounding vehicle array, its speed after the tick is `≥ 0`; a tick on an array
of vehicles with speed `≥ 0` yields such an array; and since vehicles are
spawned with speed `0`, every vehicle of every reachable array has speed `≥ 0`. -/
theorem C7_speed_nonneg :
    (∀ (mode : Mode) (timeScale delta : ℚ) (nsColor ewColor : Light) (prev : List Car)
        (car : Car), 0 ≤ car.speed → 0 ≤ delta → 0 < timeScale →
        0 ≤ nextSpeed mode timeScale (scaledDelta timeScale delta) nsColor ewColor prev car) ∧
    (∀ (mode : Mode) (timeScale delta t : ℚ) (rnd : Rand) (cars : List Car),
        (∀ c ∈ cars, 0 ≤ c.speed) → 0 ≤ delta → 0 < timeScale →
        ∀ m ∈ (tick mode timeScale delta t rnd cars).cars, 0 ≤ m.speed) ∧
    (∀ cars : List Car, Reachable cars → ∀ c ∈ cars, 0 ≤ c.speed) := by
  have step : ∀ (mode : Mode) (timeScale delta t : ℚ) (rnd : Rand) (cars : List Car),
      (∀ c ∈ cars, 0 ≤ c.speed) → 0 ≤ delta → 0 < timeScale →
      ∀ m ∈ (tick mode timeScale delta t rnd cars).cars, 0 ≤ m.speed := by
    intro mode timeScale delta t rnd cars hall hd hts m hm
    rw [tick_cars] at hm
    obtain ⟨c, hc, rfl⟩ := List.mem_map.mp hm
    have hs : 0 ≤ c.speed := by
      rcases speed_of_mem_spawnCars timeScale rnd cars c hc with h | h
      · exact hall c h
      · exact h.ge
    exact nextSpeed_nonneg mode timeScale delta _ _ _ c hs hd hts
  refine ⟨fun mode timeScale delta ns ew prev car hs hd hts =>
    nextSpeed_nonneg mode timeScale delta ns ew prev car hs hd hts, step, ?_⟩
  intro cars hr
  induction hr with
  | init => intro c hc; simp at hc
  | step mode timeScale delta t rnd cars _ hd hts ih =>
    exact step mode timeScale delta t rnd cars ih hd hts

/-- Random draws under which an ordinary vehicle is spawned on lane `0`. -/
def rndSpawn : Rand :=
  { spawnRoll := 0, laneRoll := 0, ambulanceRoll := 1 / 2, idRoll := 1 / 16,
    factorRoll := 1 / 2 }

/-- C7 at a braking vehicle and at the arrays reached from the empty array by a
tick that spawns a vehicle and a further tick. -/
theorem C7_speed_nonneg_witness :
    0 ≤ nextSpeed Mode.baseline 1 (scaledDelta 1 (1 / 60)) Light.red Light.green
          [carAhead, carBehind] carBehind ∧
    (tick Mode.baseline 1 (1 / 60) 0 rndSpawn []).cars.length = 1 ∧
    (∀ c ∈ (tick Mode.baseline 1 (1 / 60) 0 rndSpawn []).cars, 0 ≤ c.speed) ∧
    (∀ c ∈ (tick Mode.flux 1 (1 / 60) (1 / 60) rndIdle
              (tick Mode.baseline 1 (1 / 60) 0 rndSpawn []).cars).cars, 0 ≤ c.speed) :=
  ⟨C7_speed_nonneg.1 Mode.baseline 1 (1 / 60) Light.red Light.green [carAhead, carBehind]
      carBehind (by norm_num [carBehind]) (by norm_num) (by norm_num),
   by rw [tick_cars]; simp [spawnCars, rndSpawn, SPAWN_RATE, spawnBlocked],
   C7_speed_nonneg.2.2 _
      (Reachable.step Mode.baseline 1 (1 / 60) 0 rndSpawn [] Reachable.init
        (by norm_num) (by norm_num)),
   C7_speed_nonneg.2.1 Mode.flux 1 (1 / 60) (1 / 60) rndIdle _
      (C7_speed_nonneg.2.2 _
        (Reachable.step Mode.baseline 1 (1 / 60) 0 rndSpawn [] Reachable.init
          (by norm_num) (by norm_num)))
      (by norm_num) (by norm_num)⟩

/-! ### The light stop block by zone -/

theorem lightStop_outside_zone (nsColor ewColor : Light) (car : Car) (speed : ℚ)
    (h : 19 * 19 ≤ distSq car.pos) : lightStop nsColor ewColor car speed = false := by
  have h2 : ¬ distSq car.pos < DETECTION_ZONE * DETECTION_ZONE := by
    unfold DETECTION_ZONE STOP_LINE_DIST
    norm_num
    linarith
  unfold lightStop
  simp [h2]

theorem lightStop_committed (nsColor ewColor : Light) (car : Car) (speed : ℚ)
    (h14 : distSq car.pos < 14 * 14) (hsp : 1 / 10 < speed) :
    lightStop nsColor ewColor car speed = false := by
  have h2 : distSq car.pos < POINT_OF_NO_RETURN * POINT_OF_NO_RETURN := by
    unfold POINT_OF_NO_RETURN STOP_LINE_DIST
    norm_num
    linarith
  unfold lightStop
  simp only [h2, hsp, decide_True, Bool.and_self, if_true]
  split_ifs <;> rfl

theorem lightStop_red_before_point (nsColor ewColor : Light) (car : Car) (speed : ℚ)
    (hty : car.type = CarType.car)
    (h14 : 14 * 14 ≤ distSq car.pos) (h19 : distSq car.pos < 19 * 19)
    (hdot : car.pos.1 * car.dirVec.1 + car.pos.2 * car.dirVec.2 ≤ 0)
    (hred : (if car.lane < 2 then nsColor else ewColor) = Light.red) :
    lightStop nsColor ewColor car speed = true := by
  have h1 : STOP_LINE_DIST * STOP_LINE_DIST < distSq car.pos := by
    unfold STOP_LINE_DIST
    linarith
  have h2 : distSq car.pos < DETECTION_ZONE * DETECTION_ZONE := by
    unfold DETECTION_ZONE STOP_LINE_DIST
    norm_num
    linarith
  have h3 : ¬ distSq car.pos < POINT_OF_NO_RETURN * POINT_OF_NO_RETURN := by
    unfold POINT_OF_NO_RETURN STOP_LINE_DIST
    norm_num
    linarith
  have h4 : ¬ 0 < car.pos.1 * car.dirVec.1 + car.pos.2 * car.dirVec.2 := not_lt.mpr hdot
  unfold lightStop approaching isMovingAway
  simp [h1, h2, h3, h4, hred, hty]

theorem not_blocked_of_forall (car : Car) (prev : List Car)
    (h : ∀ o ∈ prev, o.id ≠ car.id → o.lane = car.lane →
      ¬ (0 < (o.pos.1 - car.pos.1) * car.dirVec.1 + (o.pos.2 - car.pos.2) * car.dirVec.2 ∧
         (o.pos.1 - car.pos.1) * car.dirVec.1 + (o.pos.2 - car.pos.2) * car.dirVec.2 < 8)) :
    ¬ Blocked car prev :=
  fun ⟨o, ho, hid, hl, h0, h8⟩ => h o ho hid hl ⟨h0, h8⟩

/-! ## Claims on the speed update -/

/-- An ordinary vehicle on lane `0`, far from the intersection, just below its
`baseline` target speed `0.25`. -/
def carCruise : Car :=
  { id := 9 / 16, type := CarType.car, lane := 0, pos := (-2, -100), dirVec := (0, 1),
    speed := 24 / 100, speedFactor := 1 }

theorem targetSpeed_carCruise : targetSpeed Mode.baseline carCruise = 1 / 4 := by
  simp [targetSpeed, carCruise, CAR_SPEED]
  norm_num

theorem mustStop_carCruise (dt : ℚ) :
    mustStop Mode.baseline 1 dt Light.green Light.red [carCruise] carCruise = false := by
  have hnb : ¬ Blocked carCruise [carCruise] := by
    rintro ⟨o, ho, hid, _⟩
    rw [List.mem_singleton] at ho
    exact hid (by rw [ho])
  unfold mustStop
  rw [followingCheck_of_not_blocked _ _ _ hnb]
  exact lightStop_outside_zone _ _ _ _ (by norm_num [carCruise, distSq])

/-- C8 fails as stated: `carCruise` has `0 ≤ speed ≤ targetSpeed = 0.25`, and
after a `baseline` tick with `timeScale = 1`, `delta = 1/60` its speed is
`0.24 + 1/96`, above the target. -/
theorem C8_counterexample :
    0 ≤ carCruise.speed ∧ carCruise.speed ≤ targetSpeed Mode.baseline carCruise ∧
    targetSpeed Mode.baseline carCruise = 1 / 4 ∧
    nextSpeed Mode.baseline 1 (scaledDelta 1 (1 / 60)) Light.green Light.red
      [carCruise] carCruise = 24 / 100 + 1 / 96 ∧
    targetSpeed Mode.baseline carCruise <
      nextSpeed Mode.baseline 1 (scaledDelta 1 (1 / 60)) Light.green Light.red
        [carCruise] carCruise := by
  have ht : targetSpeed Mode.baseline carCruise = 1 / 4 := targetSpeed_carCruise
  have hd : scaledDelta 1 (1 / 60) = 1 / 60 := by
    norm_num [scaledDelta]
  have hn : nextSpeed Mode.baseline 1 (scaledDelta 1 (1 / 60)) Light.green Light.red
      [carCruise] carCruise = 24 / 100 + 1 / 96 := by
    unfold nextSpeed
    rw [mustStop_carCruise]
    simp only [accelerated, ht, hd, acceleration, fpsScale]
    norm_num [carCruise]
  refine ⟨by norm_num [carCruise], by rw [ht]; norm_num [carCruise], ht, hn, ?_⟩
  rw [hn, ht]
  norm_num

/-- C8, amended: for every vehicle with `0 ≤ speed ≤ targetSpeed` before a tick,
every raw `delta ≥ 0` and `timeScale > 0`, the speed after the tick is at most
`targetSpeed + acceleration` (`acceleration = 0.01 * timeScale * dt / 0.016`,
the unclamped step); it is at most `targetSpeed` when
`speed + acceleration ≤ targetSpeed` or `speed = targetSpeed`. -/
theorem C8_speed_bound (mode : Mode) (timeScale delta : ℚ) (nsColor ewColor : Light)
    (prev : List Car) (car : Car)
    (h0 : 0 ≤ car.speed) (h1 : car.speed ≤ targetSpeed mode car)
    (hd : 0 ≤ delta) (hts : 0 < timeScale) :
    let dt := scaledDelta timeScale delta
    nextSpeed mode timeScale dt nsColor ewColor prev car
      ≤ targetSpeed mode car + acceleration timeScale dt ∧
    (car.speed + acceleration timeScale dt ≤ targetSpeed mode car →
      nextSpeed mode timeScale dt nsColor ewColor prev car ≤ targetSpeed mode car) ∧
    (car.speed = targetSpeed mode car →
      nextSpeed mode timeScale dt nsColor ewColor prev car ≤ targetSpeed mode car) := by
  intro dt
  have ha : 0 ≤ acceleration timeScale dt := acceleration_nonneg timeScale delta hd hts
  have hacc0 : 0 ≤ accelerated mode timeScale dt car :=
    accelerated_nonneg mode timeScale delta car h0 hd hts
  have hb : 0 ≤ braking timeScale dt := by rw [braking_eq]; linarith
  have hle : nextSpeed mode timeScale dt nsColor ewColor prev car
      ≤ accelerated mode timeScale dt car := by
    unfold nextSpeed
    split_ifs
    · exact max_le hacc0 (by linarith)
    · exact le_refl _
  refine ⟨?_, ?_, ?_⟩
  · refine le_trans hle ?_
    unfold accelerated
    split_ifs <;> linarith
  · intro h
    refine le_trans hle ?_
    unfold accelerated
    split_ifs <;> linarith
  · intro h
    refine le_trans hle ?_
    unfold accelerated
    rw [if_neg (by rw [h]; exact lt_irrefl _)]
    exact h1

/-- C8 (amended) at `carCruise`. -/
theorem C8_speed_bound_witness :
    let dt := scaledDelta 1 (1 / 60)
    nextSpeed Mode.baseline 1 dt Light.green Light.red [carCruise] carCruise
      ≤ targetSpeed Mode.baseline carCruise + acceleration 1 dt ∧
    (carCruise.speed + acceleration 1 dt ≤ targetSpeed Mode.baseline carCruise →
      nextSpeed Mode.baseline 1 dt Light.green Light.red [carCruise] carCruise
        ≤ targetSpeed Mode.baseline carCruise) ∧
    (carCruise.speed = targetSpeed Mode.baseline carCruise →
      nextSpeed Mode.baseline 1 dt Light.green Light.red [carCruise] carCruise
        ≤ targetSpeed Mode.baseline carCruise) :=
  C8_speed_bound Mode.baseline 1 (1 / 60) Light.green Light.red [carCruise] carCruise
    (by norm_num [carCruise]) (by rw [targetSpeed_carCruise]; norm_num [carCruise])
    (by norm_num) (by norm_num)

/-! ## Claims on the stop decision -/

/-- An ordinary stopped vehicle on lane `0`, 20 units from the centre, facing it. -/
def carAt20 : Car :=
  { id := 11 / 16, type := CarType.car, lane := 0, pos := (0, -20), dirVec := (0, 1),
    speed := 0, speedFactor := 1 }

/-- An ordinary stopped vehicle on lane `0`, 15 units from the centre, facing it. -/
def carAt15 : Car :=
  { id := 12 / 16, type := CarType.car, lane := 0, pos := (0, -15), dirVec := (0, 1),
    speed := 0, speedFactor := 1 }

/-- An ordinary vehicle on lane `0`, 13 units from the centre, facing it, with
speed `0.15`. -/
def carAt13 : Car :=
  { id := 13 / 16, type := CarType.car, lane := 0, pos := (0, -13), dirVec := (0, 1),
    speed := 15 / 100, speedFactor := 1 }

theorem not_blocked_singleton (car : Car) : ¬ Blocked car [car] := by
  rintro ⟨o, ho, hid, _⟩
  rw [List.mem_singleton] at ho
  exact hid (by rw [ho])

/-- C9 fails as stated: `carAt20` is ordinary, stopped, at distance 20 facing the
centre, its group's light is red (`baseline`, `t = 10`), and after a tick with
`timeScale = 1`, `delta = 1/60` its `mustStop` is false and its speed is `1/96`. -/
theorem C9_counterexample :
    carAt20.type = CarType.car ∧ carAt20.speed = 0 ∧ distSq carAt20.pos = 20 * 20 ∧
    carAt20.pos.1 * carAt20.dirVec.1 + carAt20.pos.2 * carAt20.dirVec.2 ≤ 0 ∧
    (tick Mode.baseline 1 (1 / 60) 10 rndIdle [carAt20]).nsColor = Light.red ∧
    mustStop Mode.baseline 1 (scaledDelta 1 (1 / 60)) Light.red Light.green
      (spawnCars 1 rndIdle [carAt20]) carAt20 = false ∧
    (tick Mode.baseline 1 (1 / 60) 10 rndIdle [carAt20]).cars.map Car.speed = [1 / 96] := by
  have hl : lightsLogic Mode.baseline 10 [carAt20] = (Light.red, Light.green) := by
    have hp : jsMod 10 14 = 10 := by
      rw [jsMod_eq_phase _ _ (by norm_num) (by norm_num),
        phase_of_lt _ _ (by norm_num) (by norm_num)]
    rw [lightsLogic_baseline]
    simp only [baselineCycle, hp]
    norm_num
  have hm : ∀ ns ew : Light, mustStop Mode.baseline 1 (scaledDelta 1 (1 / 60)) ns ew
      [carAt20] carAt20 = false := by
    intro ns ew
    unfold mustStop
    rw [followingCheck_of_not_blocked _ _ _ (not_blocked_singleton carAt20)]
    exact lightStop_outside_zone _ _ _ _ (by norm_num [carAt20, distSq])
  have ht : targetSpeed Mode.baseline carAt20 = 1 / 4 := by
    simp [targetSpeed, carAt20, CAR_SPEED]
    norm_num
  have hn : ∀ ns ew : Light, nextSpeed Mode.baseline 1 (scaledDelta 1 (1 / 60)) ns ew
      [carAt20] carAt20 = 1 / 96 := by
    intro ns ew
    unfold nextSpeed
    rw [hm]
    simp only [accelerated, ht, acceleration, fpsScale, scaledDelta]
    norm_num [carAt20]
  refine ⟨rfl, rfl, by norm_num [carAt20, distSq], by norm_num [carAt20], ?_, ?_, ?_⟩
  · simp only [tick, hl]
  · rw [spawnCars_rndIdle]
    exact hm _ _
  · rw [tick_cars, spawnCars_rndIdle]
    simp only [List.map_cons, List.map_nil, hn]

/-- C9, amended: for every ordinary vehicle with speed `0` heading toward the
centre whose group's light is red, and every tick with `timeScale > 0` and raw
`delta` in `(0, 0.1]`: at a distance `d` with `14 ≤ d < 19` (inside the detection
zone, before the point of no return) the tick sets `mustStop = true`, the speed
after the tick is `0` and the position does not change; at distance `20`, outside
the detection zone of `19`, the light is not consulted: with no same-lane vehicle
less than 8 ahead and a positive target speed, `mustStop` is false and the speed
after the tick is `acceleration = 0.01 * timeScale * dt / 0.016 > 0`. -/
theorem C9_stopped_at_red (mode : Mode) (timeScale delta : ℚ) (nsColor ewColor : Light)
    (prev : List Car) (car : Car)
    (hty : car.type = CarType.car) (hs : car.speed = 0)
    (hdot : car.pos.1 * car.dirVec.1 + car.pos.2 * car.dirVec.2 ≤ 0)
    (hred : (if car.lane < 2 then nsColor else ewColor) = Light.red)
    (hts : 0 < timeScale) (hd0 : 0 < delta) (_hd1 : delta ≤ 1 / 10) :
    let dt := scaledDelta timeScale delta
    (14 * 14 ≤ distSq car.pos → distSq car.pos < 19 * 19 →
      mustStop mode timeScale dt nsColor ewColor prev car = true ∧
      nextSpeed mode timeScale dt nsColor ewColor prev car = 0 ∧
      nextPos mode timeScale dt nsColor ewColor prev car = car.pos) ∧
    (distSq car.pos = 20 * 20 →
      (∀ o ∈ prev, o.id ≠ car.id → o.lane = car.lane →
        ¬ (0 < (o.pos.1 - car.pos.1) * car.dirVec.1 + (o.pos.2 - car.pos.2) * car.dirVec.2 ∧
           (o.pos.1 - car.pos.1) * car.dirVec.1 + (o.pos.2 - car.pos.2) * car.dirVec.2 < 8)) →
      0 < targetSpeed mode car →
      mustStop mode timeScale dt nsColor ewColor prev car = false ∧
      nextSpeed mode timeScale dt nsColor ewColor prev car = acceleration timeScale dt ∧
      0 < acceleration timeScale dt) := by
  intro dt
  have ha : 0 ≤ acceleration timeScale dt := acceleration_nonneg timeScale delta hd0.le hts
  constructor
  · intro h14 h19
    have hls : lightStop nsColor ewColor car (accelerated mode timeScale dt car) = true :=
      lightStop_red_before_point nsColor ewColor car _ hty h14 h19 hdot hred
    have hm : mustStop mode timeScale dt nsColor ewColor prev car = true := by
      unfold mustStop
      rw [hls]
      by_cases hb : Blocked car prev
      · exact followingCheck_of_blocked car _ prev hb
      · exact followingCheck_of_not_blocked car _ prev hb
    have hn : nextSpeed mode timeScale dt nsColor ewColor prev car = 0 := by
      unfold nextSpeed
      rw [if_pos hm, braking_eq]
      apply max_eq_left
      unfold accelerated
      split_ifs <;> linarith
    refine ⟨hm, hn, ?_⟩
    unfold nextPos
    simp [hn]
  · intro h20 hnb htgt
    have hls : lightStop nsColor ewColor car (accelerated mode timeScale dt car) = false :=
      lightStop_outside_zone nsColor ewColor car _ (by linarith)
    have hm : mustStop mode timeScale dt nsColor ewColor prev car = false := by
      unfold mustStop
      rw [hls]
      exact followingCheck_of_not_blocked car _ prev (not_blocked_of_forall car prev hnb)
    have hacc : accelerated mode timeScale dt car = acceleration timeScale dt := by
      unfold accelerated
      rw [if_pos (by rw [hs]; exact htgt), hs, zero_add]
    have hpos : 0 < acceleration timeScale dt := by
      have hdt : 0 < dt := mul_pos (lt_min hd0 (by norm_num)) hts
      unfold acceleration
      rw [fpsScale_eq]
      positivity
    refine ⟨hm, ?_, hpos⟩
    unfold nextSpeed
    rw [hm, hacc]
    simp

/-- C9 (amended) at distance 15 (stays stopped) and at distance 20 (accelerates). -/
theorem C9_stopped_at_red_witness :
    (mustStop Mode.baseline 1 (scaledDelta 1 (1 / 60)) Light.red Light.green
        [carAt15] carAt15 = true ∧
      nextSpeed Mode.baseline 1 (scaledDelta 1 (1 / 60)) Light.red Light.green
        [carAt15] carAt15 = 0 ∧
      nextPos Mode.baseline 1 (scaledDelta 1 (1 / 60)) Light.red Light.green
        [carAt15] carAt15 = carAt15.pos) ∧
    (mustStop Mode.baseline 1 (scaledDelta 1 (1 / 60)) Light.red Light.green
        [carAt20] carAt20 = false ∧
      nextSpeed Mode.baseline 1 (scaledDelta 1 (1 / 60)) Light.red Light.green
        [carAt20] carAt20 = acceleration 1 (scaledDelta 1 (1 / 60)) ∧
      0 < acceleration 1 (scaledDelta 1 (1 / 60))) :=
  ⟨(C9_stopped_at_red Mode.baseline 1 (1 / 60) Light.red Light.green [carAt15] carAt15
      rfl rfl (by norm_num [carAt15]) (by simp [carAt15]) (by norm_num) (by norm_num)
      (by norm_num)).1
      (by norm_num [carAt15, distSq]) (by norm_num [carAt15, distSq]),
   (C9_stopped_at_red Mode.baseline 1 (1 / 60) Light.red Light.green [carAt20] carAt20
      rfl rfl (by norm_num [carAt20]) (by simp [carAt20]) (by norm_num) (by norm_num)
      (by norm_num)).2
      (by norm_num [carAt20, distSq])
      (by intro o ho hid; rw [List.mem_singleton] at ho; exact absurd (by rw [ho]) hid)
      (by simp [targetSpeed, carAt20, CAR_SPEED])⟩

/-- C10: point of no return. For every vehicle at a distance `d` from the centre
with `12 < d < 14`, moving toward the centre (`pos · dirVec ≤ 0`), with pre-tick
speed `> 0.1` and no other same-lane vehicle with `0 < aheadDistance < 8`, for
every light colour of its group, every raw `delta ≥ 0` and `timeScale > 0`: the
tick leaves `mustStop = false`, applies no braking, and the speed after the tick
is the pre-tick speed plus `acceleration` when the pre-tick speed is below
`targetSpeed` (otherwise unchanged); it never decreases. -/
theorem C10_point_of_no_return (mode : Mode) (timeScale delta : ℚ)
    (nsColor ewColor : Light) (prev : List Car) (car : Car)
    (_h12 : 12 * 12 < distSq car.pos) (h14 : distSq car.pos < 14 * 14)
    (_hdot : car.pos.1 * car.dirVec.1 + car.pos.2 * car.dirVec.2 ≤ 0)
    (hsp : 1 / 10 < car.speed)
    (hnb : ∀ o ∈ prev, o.id ≠ car.id → o.lane = car.lane →
      ¬ (0 < (o.pos.1 - car.pos.1) * car.dirVec.1 + (o.pos.2 - car.pos.2) * car.dirVec.2 ∧
         (o.pos.1 - car.pos.1) * car.dirVec.1 + (o.pos.2 - car.pos.2) * car.dirVec.2 < 8))
    (hd : 0 ≤ delta) (hts : 0 < timeScale) :
    let dt := scaledDelta timeScale delta
    mustStop mode timeScale dt nsColor ewColor prev car = false ∧
    nextSpeed mode timeScale dt nsColor ewColor prev car
      = (if car.speed < targetSpeed mode car then car.speed + acceleration timeScale dt
         else car.speed) ∧
    car.speed ≤ nextSpeed mode timeScale dt nsColor ewColor prev car := by
  intro dt
  have ha : 0 ≤ acceleration timeScale dt := acceleration_nonneg timeScale delta hd hts
  have hge : car.speed ≤ accelerated mode timeScale dt car := by
    unfold accelerated
    split_ifs <;> linarith
  have hm : mustStop mode timeScale dt nsColor ewColor prev car = false := by
    unfold mustStop
    rw [followingCheck_of_not_blocked car _ prev (not_blocked_of_forall car prev hnb)]
    exact lightStop_committed nsColor ewColor car _ h14 (lt_of_lt_of_le hsp hge)
  have hn : nextSpeed mode timeScale dt nsColor ewColor prev car
      = accelerated mode timeScale dt car := by
    unfold nextSpeed
    rw [hm]
    simp
  refine ⟨hm, ?_, ?_⟩
  · rw [hn]
    rfl
  · rw [hn]
    exact hge

/-- C10 at the scenario of the specification: distance 13, speed `0.15`, red. -/
theorem C10_point_of_no_return_witness :
    let dt := scaledDelta 1 (1 / 60)
    mustStop Mode.baseline 1 dt Light.red Light.green [carAt13] carAt13 = false ∧
    nextSpeed Mode.baseline 1 dt Light.red Light.green [carAt13] carAt13
      = (if carAt13.speed < targetSpeed Mode.baseline carAt13
         then carAt13.speed + acceleration 1 dt else carAt13.speed) ∧
    carAt13.speed ≤ nextSpeed Mode.baseline 1 dt Light.red Light.green [carAt13] carAt13 :=
  C10_point_of_no_return Mode.baseline 1 (1 / 60) Light.red Light.green [carAt13] carAt13
    (by norm_num [carAt13, distSq]) (by norm_num [carAt13, distSq])
    (by norm_num [carAt13]) (by norm_num [carAt13])
    (by intro o ho hid; rw [List.mem_singleton] at ho; exact absurd (by rw [ho]) hid)
    (by norm_num) (by norm_num)

/-! ## Claims on the spawn step -/

/-- The object literal appended by the spawn step: the candidate vehicle of the
draws `rnd`. -/
def spawnCandidate (rnd : Rand) : Car :=
  { id := rnd.idRoll
    type := if decide (rnd.ambulanceRoll < 3 / 100) then CarType.ambulance else CarType.car
    lane := (spawnPoint ⌊rnd.laneRoll * 4⌋).2.2
    pos := (spawnPoint ⌊rnd.laneRoll * 4⌋).1
    dirVec := (spawnPoint ⌊rnd.laneRoll * 4⌋).2.1
    speed := 0
    speedFactor := 9 / 10 + rnd.factorRoll * (2 / 10) }

/-- Some vehicle of `cars` lies at squared distance below `15 * 15` of `pos`. -/
def WithinSpawnRadius (pos : ℚ × ℚ) (cars : List Car) : Prop :=
  ∃ c ∈ cars, (c.pos.1 - pos.1) * (c.pos.1 - pos.1) + (c.pos.2 - pos.2) * (c.pos.2 - pos.2)
    < 15 * 15

theorem spawnBlocked_iff (pos : ℚ × ℚ) (cars : List Car) :
    spawnBlocked pos cars = true ↔ WithinSpawnRadius pos cars := by
  induction cars with
  | nil => simp [spawnBlocked, WithinSpawnRadius]
  | cons x rest ih =>
    unfold spawnBlocked
    simp only []
    split_ifs with h
    · simp only [true_iff]
      exact ⟨x, List.mem_cons_self _ _, h⟩
    · rw [ih]
      constructor
      · rintro ⟨c, hc, hlt⟩
        exact ⟨c, List.mem_cons_of_mem _ hc, hlt⟩
      · rintro ⟨c, hc, hlt⟩
        rcases List.mem_cons.mp hc with rfl | hr
        · exact absurd hlt h
        · exact ⟨c, hr, hlt⟩

theorem spawnCars_fired (timeScale : ℚ) (rnd : Rand) (cars : List Car)
    (hfire : rnd.spawnRoll < SPAWN_RATE * timeScale) :
    spawnCars timeScale rnd cars
      = if spawnBlocked (spawnPoint ⌊rnd.laneRoll * 4⌋).1 cars then cars
        else cars ++ [spawnCandidate rnd] := by
  unfold spawnCars
  rw [if_pos hfire]
  rfl

theorem spawnCars_not_fired (timeScale : ℚ) (rnd : Rand) (cars : List Car)
    (h : ¬ rnd.spawnRoll < SPAWN_RATE * timeScale) : spawnCars timeScale rnd cars = cars := by
  unfold spawnCars
  rw [if_neg h]

/-- C11: spawn guard. In a tick whose spawn attempt fires
(`Math.random () < SPAWN_RATE * timeScale`), the candidate vehicle of the drawn
lane is appended to the vehicle array if and only if no vehicle of the current
array, of whatever lane, lies at ground-plane distance `< 15` from that lane's
spawn point; an appended vehicle is therefore at distance `≥ 15` from every
vehicle of the array at that instant; the candidate has speed `0` and the
position, heading and lane index of the lane's spawn point (the four fixed
points below); a rejected spawn leaves the array as it was, and the tick's
result has one vehicle more exactly when the candidate is appended. -/
theorem C11_spawn_guard (mode : Mode) (timeScale delta t : ℚ) (rnd : Rand) (cars : List Car)
    (hfire : rnd.spawnRoll < SPAWN_RATE * timeScale) :
    let sp := spawnPoint ⌊rnd.laneRoll * 4⌋
    let cand := spawnCandidate rnd
    (spawnCars timeScale rnd cars = cars ++ [cand] ↔
      ∀ c ∈ cars, ¬ ((c.pos.1 - sp.1.1) * (c.pos.1 - sp.1.1)
        + (c.pos.2 - sp.1.2) * (c.pos.2 - sp.1.2) < 15 * 15)) ∧
    (spawnCars timeScale rnd cars = cars ++ [cand] →
      ∀ c ∈ cars, 15 * 15 ≤ (c.pos.1 - cand.pos.1) * (c.pos.1 - cand.pos.1)
        + (c.pos.2 - cand.pos.2) * (c.pos.2 - cand.pos.2)) ∧
    ((∃ c ∈ cars, (c.pos.1 - sp.1.1) * (c.pos.1 - sp.1.1)
        + (c.pos.2 - sp.1.2) * (c.pos.2 - sp.1.2) < 15 * 15) →
      spawnCars timeScale rnd cars = cars) ∧
    (cand.speed = 0 ∧ cand.pos = sp.1 ∧ cand.dirVec = sp.2.1 ∧ cand.lane = sp.2.2) ∧
    (spawnPoint 0 = ((-2, -120), (0, 1), 0) ∧ spawnPoint 1 = ((2, 120), (0, -1), 1) ∧
      spawnPoint 2 = ((120, -2), (-1, 0), 2) ∧ spawnPoint 3 = ((-120, 2), (1, 0), 3)) ∧
    ((tick mode timeScale delta t rnd cars).cars.length
      = if spawnCars timeScale rnd cars = cars ++ [cand] then cars.length + 1
        else cars.length) := by
  intro sp cand
  have hs := spawnCars_fired timeScale rnd cars hfire
  have hb := spawnBlocked_iff sp.1 cars
  have hiff : spawnCars timeScale rnd cars = cars ++ [cand] ↔ ¬ WithinSpawnRadius sp.1 cars := by
    rw [hs, ← hb]
    by_cases hblk : spawnBlocked sp.1 cars = true
    · have hne : cars ≠ cars ++ [cand] := by
        intro h
        have hl := congrArg List.length h
        simp at hl
      simp only [sp] at hblk
      simp [hblk, hne, sp]
    · simp only [sp] at hblk
      simp [hblk, sp, cand]
  have hall : ¬ WithinSpawnRadius sp.1 cars ↔
      ∀ c ∈ cars, ¬ ((c.pos.1 - sp.1.1) * (c.pos.1 - sp.1.1)
        + (c.pos.2 - sp.1.2) * (c.pos.2 - sp.1.2) < 15 * 15) := by
    unfold WithinSpawnRadius
    push_neg
    rfl
  refine ⟨hiff.trans hall, ?_, ?_, ⟨rfl, rfl, rfl, rfl⟩, ?_, ?_⟩
  · intro h c hc
    exact not_lt.mp ((hiff.trans hall).mp h c hc)
  · rintro ⟨c, hc, hlt⟩
    have hw : spawnBlocked sp.1 cars = true := hb.mpr ⟨c, hc, hlt⟩
    rw [hs]
    simp only [sp] at hw
    rw [if_pos hw]
  · refine ⟨?_, ?_, ?_, ?_⟩ <;> simp [spawnPoint]
  · rw [tick_cars, List.length_map]
    by_cases h : spawnCars timeScale rnd cars = cars ++ [cand]
    · rw [if_pos h, h]
      simp
    · rw [if_neg h]
      have hw : WithinSpawnRadius sp.1 cars := not_not.mp (fun hn => h (hiff.mpr hn))
      have hblk : spawnBlocked sp.1 cars = true := hb.mpr hw
      rw [hs]
      simp only [sp] at hblk
      rw [if_pos hblk]

theorem spawnPoint_rndSpawn : spawnPoint ⌊rndSpawn.laneRoll * 4⌋ = ((-2, -120), (0, 1), 0) := by
  simp [rndSpawn, spawnPoint]

/-- C11 at the draws `rndSpawn` (lane `0`): with `carAhead`, 65 units from the
spawn point, the candidate is appended; with `carN`, on the spawn point, the
spawn is rejected. -/
theorem C11_spawn_guard_witness :
    spawnCars 1 rndSpawn [carAhead] = [carAhead] ++ [spawnCandidate rndSpawn] ∧
    spawnCars 1 rndSpawn [carN] = [carN] ∧
    (spawnCandidate rndSpawn).speed = 0 :=
  ⟨(C11_spawn_guard Mode.baseline 1 (1 / 60) 0 rndSpawn [carAhead]
      (by norm_num [rndSpawn, SPAWN_RATE])).1.mpr
      (by
        intro c hc
        rw [List.mem_singleton] at hc
        rw [hc, spawnPoint_rndSpawn]
        norm_num [carAhead]),
   (C11_spawn_guard Mode.baseline 1 (1 / 60) 0 rndSpawn [carN]
      (by norm_num [rndSpawn, SPAWN_RATE])).2.2.1
      ⟨carN, List.mem_singleton.mpr rfl, by rw [spawnPoint_rndSpawn]; norm_num [carN]⟩,
   (C11_spawn_guard Mode.baseline 1 (1 / 60) 0 rndSpawn [carN]
      (by norm_num [rndSpawn, SPAWN_RATE])).2.2.2.1.1⟩

/-! ## Anti-creep -/

/-- An ordinary stopped vehicle on lane `0`, 13 units from the centre (past the
point of no return, before the stop line), facing the centre. -/
def carCreep : Car :=
  { id := 14 / 16, type := CarType.car, lane := 0, pos := (0, -13), dirVec := (0, 1),
    speed := 0, speedFactor := 1 }

theorem lightStop_red_slow (nsColor ewColor : Light) (car : Car) (speed : ℚ)
    (hty : car.type = CarType.car)
    (h12 : 12 * 12 < distSq car.pos) (h19 : distSq car.pos < 19 * 19)
    (hdot : car.pos.1 * car.dirVec.1 + car.pos.2 * car.dirVec.2 ≤ 0)
    (hred : (if car.lane < 2 then nsColor else ewColor) = Light.red)
    (hslow : speed ≤ 1 / 10) :
    lightStop nsColor ewColor car speed = true := by
  have h1 : STOP_LINE_DIST * STOP_LINE_DIST < distSq car.pos := by
    unfold STOP_LINE_DIST
    linarith
  have h2 : distSq car.pos < DETECTION_ZONE * DETECTION_ZONE := by
    unfold DETECTION_ZONE STOP_LINE_DIST
    norm_num
    linarith
  have h3 : ¬ 1 / 10 < speed := not_lt.mpr hslow
  have h4 : ¬ 0 < car.pos.1 * car.dirVec.1 + car.pos.2 * car.dirVec.2 := not_lt.mpr hdot
  have h5 : (10 : ℚ)⁻¹ = 1 / 10 := by norm_num
  unfold lightStop approaching isMovingAway
  simp [h1, h2, h3, h4, hred, hty]
  right
  rw [h5]
  exact hslow

/-- The anti-creep property holds whenever one acceleration step does not
exceed the `0.1` threshold: a stopped ordinary vehicle in the detection zone,
facing the centre at a red light, stays stopped where it is. -/
theorem antiCreep_of_small_step (mode : Mode) (timeScale delta : ℚ)
    (nsColor ewColor : Light) (prev : List Car) (car : Car)
    (hty : car.type = CarType.car) (hs : car.speed = 0)
    (h12 : 12 * 12 < distSq car.pos) (h19 : distSq car.pos < 19 * 19)
    (hdot : car.pos.1 * car.dirVec.1 + car.pos.2 * car.dirVec.2 ≤ 0)
    (hred : (if car.lane < 2 then nsColor else ewColor) = Light.red)
    (hd : 0 ≤ delta) (hts : 0 < timeScale)
    (hstep : acceleration timeScale (scaledDelta timeScale delta) ≤ 1 / 10) :
    mustStop mode timeScale (scaledDelta timeScale delta) nsColor ewColor prev car = true ∧
    nextSpeed mode timeScale (scaledDelta timeScale delta) nsColor ewColor prev car = 0 ∧
    nextPos mode timeScale (scaledDelta timeScale delta) nsColor ewColor prev car = car.pos := by
  have ha := acceleration_nonneg timeScale delta hd hts
  have hslow : accelerated mode timeScale (scaledDelta timeScale delta) car ≤ 1 / 10 := by
    unfold accelerated
    split_ifs <;> linarith
  have hls := lightStop_red_slow nsColor ewColor car _ hty h12 h19 hdot hred hslow
  have hm : mustStop mode timeScale (scaledDelta timeScale delta) nsColor ewColor prev car
      = true := by
    unfold mustStop
    rw [hls]
    by_cases hb : Blocked car prev
    · exact followingCheck_of_blocked car _ prev hb
    · exact followingCheck_of_not_blocked car _ prev hb
  have hn : nextSpeed mode timeScale (scaledDelta timeScale delta) nsColor ewColor prev car
      = 0 := by
    unfold nextSpeed
    rw [if_pos hm, braking_eq]
    apply max_eq_left
    unfold accelerated
    split_ifs <;> linarith
  refine ⟨hm, hn, ?_⟩
  unfold nextPos
  simp [hn]

/-- At the host's own time scales `1.0` and `0.1` one acceleration step stays
below the threshold, whatever the raw delta. -/
theorem acceleration_le_of_timeScale_le_one (timeScale delta : ℚ)
    (hts : 0 < timeScale) (h1 : timeScale ≤ 1) (hd : 0 ≤ delta) :
    acceleration timeScale (scaledDelta timeScale delta) ≤ 1 / 10 := by
  have hmin : min delta (1 / 10) ≤ 1 / 10 := min_le_right _ _
  have hmin0 : 0 ≤ min delta (1 / 10) := le_min hd (by norm_num)
  have hsq : timeScale * timeScale ≤ 1 := by nlinarith
  have hsq0 : 0 ≤ timeScale * timeScale := by positivity
  unfold acceleration scaledDelta
  rw [fpsScale_eq]
  nlinarith [mul_le_mul hmin hsq hsq0 (by norm_num : (0 : ℚ) ≤ 1 / 10)]

/-- C12 fails as stated, for every `timeScale > 0`: `carCreep` is ordinary,
stopped, 13 units from the centre, facing it, and its group's light is red
(`baseline`, `t = 10`); in a tick with `timeScale = 2` and `delta = 0.1` the
acceleration step alone takes its speed to `0.25`, above the `0.1` threshold,
so `mustStop` is false, its speed after the tick is `0.25` and it moves 3.125
units forward. -/
theorem C12_counterexample :
    carCreep.type = CarType.car ∧ carCreep.speed = 0 ∧
    12 * 12 < distSq carCreep.pos ∧ distSq carCreep.pos < 14 * 14 ∧
    carCreep.pos.1 * carCreep.dirVec.1 + carCreep.pos.2 * carCreep.dirVec.2 ≤ 0 ∧
    (tick Mode.baseline 2 (1 / 10) 10 rndIdle [carCreep]).nsColor = Light.red ∧
    mustStop Mode.baseline 2 (scaledDelta 2 (1 / 10)) Light.red Light.green
      (spawnCars 2 rndIdle [carCreep]) carCreep = false ∧
    (tick Mode.baseline 2 (1 / 10) 10 rndIdle [carCreep]).cars.map Car.speed = [1 / 4] ∧
    (tick Mode.baseline 2 (1 / 10) 10 rndIdle [carCreep]).cars.map Car.pos
      = [(0, -13 + 25 / 8)] := by
  have hl : lightsLogic Mode.baseline 10 [carCreep] = (Light.red, Light.green) := by
    have hp : jsMod 10 14 = 10 := by
      rw [jsMod_eq_phase _ _ (by norm_num) (by norm_num),
        phase_of_lt _ _ (by norm_num) (by norm_num)]
    rw [lightsLogic_baseline]
    simp only [baselineCycle, hp]
    norm_num
  have hsp : spawnCars 2 rndIdle [carCreep] = [carCreep] :=
    spawnCars_not_fired 2 rndIdle _ (by norm_num [rndIdle, SPAWN_RATE])
  have ht : targetSpeed Mode.baseline carCreep = 1 / 4 := by
    simp [targetSpeed, carCreep, CAR_SPEED]
    norm_num
  have hacc : accelerated Mode.baseline 2 (scaledDelta 2 (1 / 10)) carCreep = 1 / 4 := by
    simp only [accelerated, ht, acceleration, fpsScale, scaledDelta]
    norm_num [carCreep]
  have hm : ∀ ns ew : Light, mustStop Mode.baseline 2 (scaledDelta 2 (1 / 10)) ns ew
      [carCreep] carCreep = false := by
    intro ns ew
    unfold mustStop
    rw [followingCheck_of_not_blocked _ _ _ (not_blocked_singleton carCreep), hacc]
    exact lightStop_committed ns ew carCreep _ (by norm_num [carCreep, distSq]) (by norm_num)
  have hn : ∀ ns ew : Light, nextSpeed Mode.baseline 2 (scaledDelta 2 (1 / 10)) ns ew
      [carCreep] carCreep = 1 / 4 := by
    intro ns ew
    unfold nextSpeed
    rw [hm, hacc]
    simp
  have hpos : ∀ ns ew : Light, nextPos Mode.baseline 2 (scaledDelta 2 (1 / 10)) ns ew
      [carCreep] carCreep = (0, -13 + 25 / 8) := by
    intro ns ew
    unfold nextPos
    simp only [hn]
    simp only [fpsScale, scaledDelta]
    norm_num [carCreep]
  refine ⟨rfl, rfl, by norm_num [carCreep, distSq], by norm_num [carCreep, distSq],
    by norm_num [carCreep], ?_, ?_, ?_, ?_⟩
  · simp only [tick, hl]
  · rw [hsp]
    exact hm _ _
  · rw [tick_cars, hsp]
    simp only [List.map_cons, List.map_nil, hn]
  · rw [tick_cars, hsp]
    simp only [List.map_cons, List.map_nil, hpos]

theorem stays_stopped_of_lightStop (mode : Mode) (timeScale delta : ℚ)
    (nsColor ewColor : Light) (prev : List Car) (car : Car) (hs : car.speed = 0)
    (hd : 0 ≤ delta) (hts : 0 < timeScale)
    (hls : lightStop nsColor ewColor car
      (accelerated mode timeScale (scaledDelta timeScale delta) car) = true) :
    mustStop mode timeScale (scaledDelta timeScale delta) nsColor ewColor prev car = true ∧
    nextSpeed mode timeScale (scaledDelta timeScale delta) nsColor ewColor prev car = 0 ∧
    nextPos mode timeScale (scaledDelta timeScale delta) nsColor ewColor prev car = car.pos := by
  have ha := acceleration_nonneg timeScale delta hd hts
  have hm : mustStop mode timeScale (scaledDelta timeScale delta) nsColor ewColor prev car
      = true := by
    unfold mustStop
    rw [hls]
    by_cases hb : Blocked car prev
    · exact followingCheck_of_blocked car _ prev hb
    · exact followingCheck_of_not_blocked car _ prev hb
  have hn : nextSpeed mode timeScale (scaledDelta timeScale delta) nsColor ewColor prev car
      = 0 := by
    unfold nextSpeed
    rw [if_pos hm, braking_eq]
    apply max_eq_left
    unfold accelerated
    split_ifs <;> linarith
  refine ⟨hm, hn, ?_⟩
  unfold nextPos
  simp [hn]

/-- C12, amended: anti-creep for the time scales the host passes. For every
ordinary vehicle that is stopped (speed `0`) inside the detection zone (distance
`d` with `12 < d < 19`, the stretch `12 < d < 14` past the point of no return
included), moving toward the centre, whose group's light is red, for every raw
`delta ≥ 0` and every `timeScale` with `0 < timeScale ≤ 1` (the host's `1.0` and
`0.1`), and more generally whenever one acceleration step
`0.01 * timeScale * dt / 0.016` is at most `0.1` or `d ≥ 14`: the tick sets
`mustStop = true`, the speed after the tick is `0` and the position is
unchanged. -/
theorem C12_anti_creep (mode : Mode) (timeScale delta : ℚ)
    (nsColor ewColor : Light) (prev : List Car) (car : Car)
    (hty : car.type = CarType.car) (hs : car.speed = 0)
    (h12 : 12 * 12 < distSq car.pos) (h19 : distSq car.pos < 19 * 19)
    (hdot : car.pos.1 * car.dirVec.1 + car.pos.2 * car.dirVec.2 ≤ 0)
    (hred : (if car.lane < 2 then nsColor else ewColor) = Light.red)
    (hd : 0 ≤ delta) (hts : 0 < timeScale)
    (hstep : timeScale ≤ 1 ∨ acceleration timeScale (scaledDelta timeScale delta) ≤ 1 / 10 ∨
      14 * 14 ≤ distSq car.pos) :
    mustStop mode timeScale (scaledDelta timeScale delta) nsColor ewColor prev car = true ∧
    nextSpeed mode timeScale (scaledDelta timeScale delta) nsColor ewColor prev car = 0 ∧
    nextPos mode timeScale (scaledDelta timeScale delta) nsColor ewColor prev car = car.pos := by
  rcases hstep with h1 | hacc | h14
  · exact antiCreep_of_small_step mode timeScale delta nsColor ewColor prev car hty hs h12 h19
      hdot hred hd hts (acceleration_le_of_timeScale_le_one timeScale delta hts h1 hd)
  · exact antiCreep_of_small_step mode timeScale delta nsColor ewColor prev car hty hs h12 h19
      hdot hred hd hts hacc
  · exact stays_stopped_of_lightStop mode timeScale delta nsColor ewColor prev car hs hd hts
      (lightStop_red_before_point nsColor ewColor car _ hty h14 h19 hdot hred)

/-- C12 (amended) at `carCreep`, distance 13 at a red light, for the host's two
time scales with the raw delta at its clamp `0.1`. -/
theorem C12_anti_creep_witness :
    (mustStop Mode.baseline 1 (scaledDelta 1 (1 / 10)) Light.red Light.green
        [carCreep] carCreep = true ∧
      nextSpeed Mode.baseline 1 (scaledDelta 1 (1 / 10)) Light.red Light.green
        [carCreep] carCreep = 0 ∧
      nextPos Mode.baseline 1 (scaledDelta 1 (1 / 10)) Light.red Light.green
        [carCreep] carCreep = carCreep.pos) ∧
    (mustStop Mode.flux (1 / 10) (scaledDelta (1 / 10) (1 / 10)) Light.red Light.green
        [carCreep] carCreep = true ∧
      nextSpeed Mode.flux (1 / 10) (scaledDelta (1 / 10) (1 / 10)) Light.red Light.green
        [carCreep] carCreep = 0 ∧
      nextPos Mode.flux (1 / 10) (scaledDelta (1 / 10) (1 / 10)) Light.red Light.green
        [carCreep] carCreep = carCreep.pos) :=
  ⟨C12_anti_creep Mode.baseline 1 (1 / 10) Light.red Light.green [carCreep] carCreep
      rfl rfl (by norm_num [carCreep, distSq]) (by norm_num [carCreep, distSq])
      (by norm_num [carCreep]) (by simp [carCreep]) (by norm_num) (by norm_num)
      (Or.inl (le_refl 1)),
   C12_anti_creep Mode.flux (1 / 10) (1 / 10) Light.red Light.green [carCreep] carCreep
      rfl rfl (by norm_num [carCreep, distSq]) (by norm_num [carCreep, distSq])
      (by norm_num [carCreep]) (by simp [carCreep]) (by norm_num) (by norm_num)
      (Or.inl (by norm_num))⟩

end FlowState
